import Mathlib

/-!
# Verification of the bubble-bot container orchestration engine

A shallow embedding, in Lean 4, of the pure/decision-making parts of the
bubble-bot repository (a Rust tool that provisions ephemeral development
containers), together with theorems settling the specification claims about:

* content-hash image tagging (`src/docker/images.rs`, `ImageBuilder`),
* the build cache decision (`ImageBuilder::build`),
* cleanup-registry teardown (`src/main.rs`, `CleanupState::cleanup`),
* signal-handler exit codes (`src/main.rs`, `spawn_signal_handler`, `run_shell`),
* service collection and environment layering (`src/services/`),
* default resource naming (`src/docker/containers.rs`, `src/docker/networks.rs`),
* stale-prefix matching (`matches_stale_prefix`),
* readiness polling (`ContainerManager::wait_for_ready`),
* service volume splitting (`ContainerManager::start_service`).

Strings are modelled as `List Char` (all strings involved are ASCII, so Rust's
byte-oriented operations coincide with character-oriented ones); byte sequences
as `List Nat` with each element `< 256`; 32-bit machine arithmetic as `Nat`
with explicit reduction `% 2^32`.
-/

namespace BubbleBot

/-! ## SHA-256 (semantics of the `sha2` crate as used by `compute_tag`)

`ImageBuilder::compute_tag` hashes the rendered Dockerfile bytes with SHA-256
and formats the digest as lowercase hex.  We embed SHA-256 (FIPS 180-4)
executably over byte lists; the implementation is validated below against the
standard test vectors for the empty message and `"abc"`. -/

/-- Truncate to a 32-bit word. -/
def w32 (n : Nat) : Nat := n % 2 ^ 32

/-- 32-bit right rotation. -/
def rotr (k x : Nat) : Nat := w32 ((x >>> k) ||| (x <<< (32 - k)))

/-- 32-bit bitwise complement. -/
def compl32 (x : Nat) : Nat := x ^^^ (2 ^ 32 - 1)

/-- SHA-256 initial hash value (first 32 bits of the fractional parts of the
square roots of the first 8 primes). -/
def sha256InitH : List Nat :=
  [1779033703, 3144134277, 1013904242, 2773480762,
   1359893119, 2600822924, 528734635, 1541459225]

/-- SHA-256 round constants (first 32 bits of the fractional parts of the cube
roots of the first 64 primes). -/
def sha256K : List Nat :=
  [1116352408, 1899447441, 3049323471, 3921009573, 961987163,
   1508970993, 2453635748, 2870763221, 3624381080, 310598401,
   607225278, 1426881987, 1925078388, 2162078206, 2614888103,
   3248222580, 3835390401, 4022224774, 264347078, 604807628,
   770255983, 1249150122, 1555081692, 1996064986, 2554220882,
   2821834349, 2952996808, 3210313671, 3336571891, 3584528711,
   113926993, 338241895, 666307205, 773529912, 1294757372,
   1396182291, 1695183700, 1986661051, 2177026350, 2456956037,
   2730485921, 2820302411, 3259730800, 3345764771, 3516065817,
   3600352804, 4094571909, 275423344, 430227734, 506948616,
   659060556, 883997877, 958139571, 1322822218, 1537002063,
   1747873779, 1955562222, 2024104815, 2227730452, 2361852424,
   2428436474, 2756734187, 3204031479, 3329325298]

/-- SHA-256 message padding: append `0x80`, zeros to 56 mod 64, then the
64-bit big-endian bit length. -/
def sha256Pad (len : Nat) : List Nat :=
  let zeros := (119 - len % 64) % 64
  let bits := len * 8
  0x80 :: List.replicate zeros 0 ++
    [bits >>> 56 % 256, bits >>> 48 % 256, bits >>> 40 % 256, bits >>> 32 % 256,
     bits >>> 24 % 256, bits >>> 16 % 256, bits >>> 8 % 256, bits % 256]

/-- Split a byte list into 64-byte blocks, with explicit structural fuel so
that the definition reduces inside the kernel.  The fuel `l.length` always
suffices because each step consumes 64 bytes of a nonempty list. -/
def toBlocksFuel : Nat → List Nat → List (List Nat)
  | 0, _ => []
  | _ + 1, [] => []
  | n + 1, l => l.take 64 :: toBlocksFuel n (l.drop 64)

/-- Split a (padded) byte list into 64-byte blocks. -/
def toBlocks (l : List Nat) : List (List Nat) := toBlocksFuel l.length l

/-- Pack consecutive groups of 4 bytes into big-endian 32-bit words. -/
def toWords : List Nat → List Nat
  | a :: b :: c :: d :: rest => (((a * 256 + b) * 256 + c) * 256 + d) :: toWords rest
  | _ => []

/-- One step of the SHA-256 message-schedule extension: append
`σ1(W[t-2]) + W[t-7] + σ0(W[t-15]) + W[t-16] mod 2^32`. -/
def scheduleStep (ws : List Nat) : List Nat :=
  let t := ws.length
  let x2 := ws.getD (t - 2) 0
  let x7 := ws.getD (t - 7) 0
  let x15 := ws.getD (t - 15) 0
  let x16 := ws.getD (t - 16) 0
  let s0 := rotr 7 x15 ^^^ rotr 18 x15 ^^^ (x15 >>> 3)
  let s1 := rotr 17 x2 ^^^ rotr 19 x2 ^^^ (x2 >>> 10)
  ws ++ [w32 (s1 + x7 + s0 + x16)]

/-- Iterate the message-schedule extension `n` times. -/
def extendSchedule : Nat → List Nat → List Nat
  | 0, ws => ws
  | n + 1, ws => extendSchedule n (scheduleStep ws)

/-- Working state of the SHA-256 compression function. -/
structure Sha8 where
  a : Nat
  b : Nat
  c : Nat
  d : Nat
  e : Nat
  f : Nat
  g : Nat
  h : Nat

/-- One SHA-256 compression round on a `(Kt, Wt)` pair. -/
def sha256Round (st : Sha8) (kw : Nat × Nat) : Sha8 :=
  let S1 := rotr 6 st.e ^^^ rotr 11 st.e ^^^ rotr 25 st.e
  let ch := (st.e &&& st.f) ^^^ (compl32 st.e &&& st.g)
  let t1 := w32 (st.h + S1 + ch + kw.1 + kw.2)
  let S0 := rotr 2 st.a ^^^ rotr 13 st.a ^^^ rotr 22 st.a
  let maj := (st.a &&& st.b) ^^^ (st.a &&& st.c) ^^^ (st.b &&& st.c)
  let t2 := w32 (S0 + maj)
  ⟨w32 (t1 + t2), st.a, st.b, st.c, w32 (st.d + t1), st.e, st.f, st.g⟩

/-- Process one 64-byte block against the running 8-word hash value. -/
def sha256Block (hv : List Nat) (block : List Nat) : List Nat :=
  let ws := extendSchedule 48 (toWords block)
  let init : Sha8 :=
    ⟨hv.getD 0 0, hv.getD 1 0, hv.getD 2 0, hv.getD 3 0,
     hv.getD 4 0, hv.getD 5 0, hv.getD 6 0, hv.getD 7 0⟩
  let st := (sha256K.zip ws).foldl sha256Round init
  [w32 (hv.getD 0 0 + st.a), w32 (hv.getD 1 0 + st.b),
   w32 (hv.getD 2 0 + st.c), w32 (hv.getD 3 0 + st.d),
   w32 (hv.getD 4 0 + st.e), w32 (hv.getD 5 0 + st.f),
   w32 (hv.getD 6 0 + st.g), w32 (hv.getD 7 0 + st.h)]

/-- Serialize a 32-bit word as 4 big-endian bytes. -/
def wordBytes (x : Nat) : List Nat :=
  [x >>> 24 % 256, x >>> 16 % 256, x >>> 8 % 256, x % 256]

/-- SHA-256 of a byte sequence, as the 32 digest bytes. -/
def sha256 (msg : List Nat) : List Nat :=
  let padded := msg ++ sha256Pad msg.length
  ((toBlocks padded).foldl sha256Block sha256InitH).flatMap wordBytes

/-! ## Image tagging (`src/docker/images.rs`) -/

/-- The lowercase hex digit for a value `< 16`. -/
def hexDigit (n : Nat) : Char := "0123456789abcdef".data.getD n '0'

/-- Lowercase hex rendering of a byte sequence (Rust's `format!("{hash:x}")`
on a `sha2` digest). -/
def toHex (bytes : List Nat) : List Char :=
  bytes.flatMap fun b => [hexDigit (b / 16), hexDigit (b % 16)]

/-- `ImageBuilder::compute_tag` (src/docker/images.rs:32-39): SHA-256 the
Dockerfile bytes, render the digest as lowercase hex, keep the first 12
characters, and prefix with `bubble-boy:`. -/
def compute_tag (dockerfile : List Nat) : List Char :=
  "bubble-boy:".data ++ (toHex (sha256 dockerfile)).take 12

/-- Result of `ImageBuilder::build` (src/docker/images.rs:19-23). -/
structure BuildResult where
  tag : List Char
  cached : Bool
deriving DecidableEq

/-- `ImageBuilder::build` (src/docker/images.rs:66-128), abstracted over the
engine: `image_exists` is the engine's answer to the tag-reference query, and
`engine_build_error` is `some msg` when the streamed build reports a
structured error (or the stream itself fails), `none` when the build
completes.  Returns the build outcome together with a flag recording whether
a build was submitted to the engine at all. -/
def build (dockerfile : List Nat) (image_exists : List Char → Bool)
    (engine_build_error : Option (List Char)) (no_cache : Bool) :
    Except (List Char) BuildResult × Bool :=
  let tag := compute_tag dockerfile
  if !no_cache && image_exists tag then
    (Except.ok ⟨tag, true⟩, false)
  else
    match engine_build_error with
    | some e => (Except.error ("Docker build error: ".data ++ e), true)
    | none => (Except.ok ⟨tag, false⟩, true)

/-! ## Configuration defaults (`src/config.rs`) -/

/-- `MysqlConfig` (src/config.rs:42-49). -/
structure MysqlConfig where
  version : List Char
  database : List Char
  username : List Char
  password : List Char
deriving DecidableEq

/-- `impl Default for MysqlConfig` (src/config.rs:51-60). -/
def MysqlConfig.default : MysqlConfig :=
  ⟨"8.0".data, "app".data, "root".data, "password".data⟩

/-- `PostgresConfig` (src/config.rs:62-69). -/
structure PostgresConfig where
  version : List Char
  database : List Char
  username : List Char
  password : List Char
deriving DecidableEq

/-- `impl Default for PostgresConfig` (src/config.rs:71-80). -/
def PostgresConfig.default : PostgresConfig :=
  ⟨"16".data, "app".data, "postgres".data, "password".data⟩

/-- `ServiceConfig` (src/config.rs:34-40). -/
structure ServiceConfig where
  mysql : Option MysqlConfig
  redis : Option Bool
  postgres : Option PostgresConfig
deriving DecidableEq

/-! ## Service descriptors (`src/services/`)

The Rust code dispatches over `Box<dyn Service>`; the variant set is closed
(MySQL, Redis, PostgreSQL), so it embeds as a sum type.  Each constructor
carries the configuration and project name captured by `::new`. -/

/-- The closed set of service descriptors. -/
inductive Service where
  | mysql (cfg : MysqlConfig) (project_name : List Char)
  | redis (project_name : List Char)
  | postgres (cfg : PostgresConfig) (project_name : List Char)
deriving DecidableEq

/-- `Service::name` for each variant. -/
def Service.name : Service → List Char
  | .mysql _ _ => "mysql".data
  | .redis _ => "redis".data
  | .postgres _ _ => "postgres".data

/-- `Service::dev_env`: MySQL (src/services/mysql.rs:45-53), Redis
(src/services/redis.rs:26-31), PostgreSQL (src/services/postgres.rs:40-48). -/
def Service.dev_env : Service → List (List Char)
  | .mysql cfg _ =>
      ["DB_HOST=mysql".data, "DB_PORT=3306".data,
       "DB_DATABASE=".data ++ cfg.database,
       "DB_USERNAME=".data ++ cfg.username,
       "DB_PASSWORD=".data ++ cfg.password]
  | .redis _ => ["REDIS_HOST=redis".data, "REDIS_PORT=6379".data]
  | .postgres cfg _ =>
      ["DB_HOST=postgres".data, "DB_PORT=5432".data,
       "DB_DATABASE=".data ++ cfg.database,
       "DB_USERNAME=".data ++ cfg.username,
       "DB_PASSWORD=".data ++ cfg.password]

/-- `Service::volume`: MySQL mounts `bubble-bot-<project>-mysql-data` at
`/var/lib/mysql` (src/services/mysql.rs:17-21,55-57), Redis has no volume
(src/services/redis.rs:33-35), PostgreSQL mounts
`bubble-boy-<project>-postgres-data` at `/var/lib/postgresql/data`
(src/services/postgres.rs:17-21,50-52). -/
def Service.volume : Service → Option (List Char)
  | .mysql _ p => some (("bubble-bot-".data ++ p ++ "-mysql-data".data) ++ ":/var/lib/mysql".data)
  | .redis _ => none
  | .postgres _ p =>
      some (("bubble-boy-".data ++ p ++ "-postgres-data".data) ++ ":/var/lib/postgresql/data".data)

/-- `Service::container_name`: each impl ignores the `_project` argument and
uses the stored `project_name`; MySQL uses the `bubble-bot-` prefix
(src/services/mysql.rs:69-71) while Redis and PostgreSQL use `bubble-boy-`
(src/services/redis.rs:44-46, src/services/postgres.rs:62-64). -/
def Service.container_name : Service → List Char → List Char
  | .mysql _ p, _ => "bubble-bot-".data ++ p ++ "-mysql".data
  | .redis p, _ => "bubble-boy-".data ++ p ++ "-redis".data
  | .postgres _ p, _ => "bubble-boy-".data ++ p ++ "-postgres".data

/-- Whether a descriptor is a cache service (Redis). -/
def Service.is_cache : Service → Bool
  | .redis _ => true
  | _ => false

/-- Whether a descriptor is a database-engine service (MySQL or PostgreSQL). -/
def Service.is_database : Service → Bool
  | .mysql _ _ => true
  | .postgres _ _ => true
  | _ => false

/-- `collect_services` (src/services/mod.rs:44-66): MySQL when configured,
then Redis when `Some(true)`, then PostgreSQL when configured. -/
def collect_services (config : ServiceConfig) (project : List Char) : List Service :=
  (match config.mysql with
    | some c => [Service.mysql c project]
    | none => []) ++
  (if config.redis = some true then [Service.redis project] else []) ++
  (match config.postgres with
    | some c => [Service.postgres c project]
    | none => [])

/-- `collect_service_env_vars` (src/services/mod.rs:69-75): concatenation of
each collected service's dev-container environment, in collection order. -/
def collect_service_env_vars (services : List Service) : List (List Char) :=
  services.flatMap Service.dev_env

/-! ## Default resource names (`src/docker/containers.rs`, `networks.rs`)

Both derive from the current working directory's base name; we make that
input explicit as `Option (List Char)` (`none` models an unreadable cwd). -/

/-- `default_container_name` (src/docker/containers.rs:464-470):
`bubble-boy-<dir>` with fallback `bubble-boy-project`. -/
def default_container_name (cwd_base : Option (List Char)) : List Char :=
  match cwd_base with
  | some n => "bubble-boy-".data ++ n
  | none => "bubble-boy-project".data

/-- `default_network_name` (src/docker/networks.rs:119-125):
`bubble-bot-<dir>` with fallback `bubble-bot-project`. -/
def default_network_name (cwd_base : Option (List Char)) : List Char :=
  match cwd_base with
  | some n => "bubble-bot-".data ++ n
  | none => "bubble-bot-project".data

/-- `matches_stale_prefix` for containers (src/docker/containers.rs:456-460):
true when the Docker-reported name (which carries a leading `/`) equals
`/<prefix>` or starts with `/<prefix>-`. -/
def matches_stale (container_name pre : List Char) : Bool :=
  let pws := '/' :: pre
  container_name == pws || (pws ++ ['-']).isPrefixOf container_name

/-! ## Cleanup registry (`src/main.rs`, `CleanupState`) -/

/-- Engine operations issued during teardown. -/
inductive EngineCall where
  | stopAndRemove (id : List Char)
  | removeNetwork (nm : List Char)
deriving DecidableEq

/-- `CleanupState` (src/main.rs:35-41): the session-scoped registry.  The
engine handle carries no data relevant here, so it is `Option Unit`. -/
structure CleanupState where
  docker : Option Unit
  dev_container_id : Option (List Char)
  service_container_ids : List (List Char)
  network_name : Option (List Char)
deriving DecidableEq

/-- `CleanupState::cleanup` (src/main.rs:46-74).  `self.docker.take()` guards
everything: without a handle the method returns at once.  Otherwise every
field is taken/drained and one engine call is issued per registered resource
(dev container, then each service container, then the network); each call's
failure is logged and swallowed, so the operation itself never fails.
Returns the post-state and the list of engine calls issued, in order. -/
def CleanupState.cleanup (s : CleanupState) : CleanupState × List EngineCall :=
  match s.docker with
  | none => (s, [])
  | some _ =>
      (⟨none, none, [], none⟩,
       (s.dev_container_id.toList.map EngineCall.stopAndRemove) ++
         s.service_container_ids.map EngineCall.stopAndRemove ++
         (s.network_name.toList.map EngineCall.removeNetwork))

/-! ## Readiness polling (`ContainerManager::wait_for_ready`) -/

/-- The retry loop of `wait_for_ready` (src/docker/containers.rs:411-443),
`for attempt in 1..=max_retries`, abstracted over the probe's outcome per
attempt.  `fuel` counts the attempts still allowed (initially `max_retries`).
Returns (probe succeeded?, number of probe executions, number of sleeps). -/
def wfrGo (probe : Nat → Bool) (max_retries : Nat) :
    Nat → Nat → Nat → Nat → Bool × Nat × Nat
  | 0, _, probes, sleeps => (false, probes, sleeps)
  | fuel + 1, attempt, probes, sleeps =>
      if probe attempt then (true, probes + 1, sleeps)
      else if attempt < max_retries then
        wfrGo probe max_retries fuel (attempt + 1) (probes + 1) (sleeps + 1)
      else (false, probes + 1, sleeps)

/-- `ContainerManager::wait_for_ready` (src/docker/containers.rs:397-450):
runs the probe up to `max_retries` times, sleeping between failed attempts
but not after the last; exhaustion produces the error
`"<name> service did not become ready after <n> attempts"`. -/
def wait_for_ready (probe : Nat → Bool) (max_retries : Nat)
    (service_name : List Char) : Except (List Char) Unit × Nat × Nat :=
  let r := wfrGo probe max_retries max_retries 1 0 0
  (if r.1 then Except.ok ()
   else Except.error (service_name ++ " service did not become ready after ".data ++
     (Nat.repr max_retries).data ++ " attempts".data),
   r.2.1, r.2.2)

/-! ## Service volume mounting (`ContainerManager::start_service`) -/

/-- Rust's `vol.splitn(2, sep)`: everything before the first separator, and —
when a separator occurs — everything after it. -/
def splitn2 (sep : Char) (l : List Char) : List (List Char) :=
  match l.dropWhile (fun c => c != sep) with
  | [] => [l.takeWhile (fun c => c != sep)]
  | _ :: rest => [l.takeWhile (fun c => c != sep), rest]

/-- The mount construction of `start_service`
(src/docker/containers.rs:338-346): split the volume spec at the first `:`
and read `parts[0]` (source) and `parts[1]` (target).  `none` models the
out-of-bounds panic of the unchecked `parts[1]` indexing. -/
def mount_of_volume (vol : List Char) : Option (List Char × List Char) :=
  let parts := splitn2 ':' vol
  match parts[0]?, parts[1]? with
  | some src, some tgt => some (src, tgt)
  | _, _ => none

/-! ## Session exit codes (`src/main.rs`) -/

/-- The termination signals the background listener waits for
(src/main.rs:80-99). -/
inductive Sig where
  | sigint
  | sigterm
deriving DecidableEq

/-- Conventional POSIX signal numbers. -/
def sig_number : Sig → Nat
  | .sigint => 2
  | .sigterm => 15

/-- The exit code used by the signal-triggered teardown path
(src/main.rs:97): `std::process::exit(130)` unconditionally, whichever of
SIGINT/SIGTERM fired. -/
def signal_cleanup_exit_code : Sig → Nat := fun _ => 130

/-- The process exit code on the normal-completion path of `run_shell`
(src/main.rs:646-663): `std::process::exit(exit_code)` when the inner exec's
code is nonzero, otherwise `Ok(())` from `main`, i.e. exit code 0. -/
def session_exit_code (exec_code : Int) : Int :=
  if exec_code ≠ 0 then exec_code else 0

/-! ## Helper lemmas -/

set_option maxRecDepth 10000

/-- Appending a common front preserves `isPrefixOf`. -/
theorem isPrefixOf_append_same (l xs ys : List Char) (h : xs.isPrefixOf ys = true) :
    (l ++ xs).isPrefixOf (l ++ ys) = true := by
  induction l with
  | nil => simpa using h
  | cons a t ih => simpa [List.isPrefixOf] using ih

/-- A name of the form `/<pre>-<suf>` always satisfies the stale-prefix test
for `pre`. -/
theorem matches_stale_self_dash (pre suf : List Char) :
    matches_stale ('/' :: (pre ++ '-' :: suf)) pre = true := by
  have h : (('/' :: pre) ++ ['-']).isPrefixOf ('/' :: (pre ++ '-' :: suf)) = true :=
    isPrefixOf_append_same ('/' :: pre) ['-'] ('-' :: suf) (by simp [List.isPrefixOf])
  simp only [matches_stale]
  rw [h, Bool.or_true]

/-- With an always-failing probe, the retry loop of `wait_for_ready` runs all
remaining attempts: one probe per unit of fuel, one sleep between consecutive
probes. -/
theorem wfrGo_all_fail (probe : Nat → Bool) (m : Nat) (hp : ∀ i, probe i = false) :
    ∀ (fuel attempt probes sleeps : Nat), attempt + fuel = m →
      wfrGo probe m (fuel + 1) attempt probes sleeps = (false, probes + fuel + 1, sleeps + fuel) := by
  intro fuel
  induction fuel with
  | zero =>
      intro attempt probes sleeps h
      have hnl : ¬ attempt < m := by omega
      simp [wfrGo, hp, hnl]
  | succ f ih =>
      intro attempt probes sleeps h
      have hlt : attempt < m := by omega
      rw [wfrGo]
      simp only [hp, hlt, Bool.false_eq_true, ite_false, ite_true]
      rw [ih (attempt + 1) (probes + 1) (sleeps + 1) (by omega)]
      simp [Prod.ext_iff]
      omega

/-- When the probe first succeeds at attempt `k`, the retry loop of
`wait_for_ready` stops there: `k - attempt + 1` further probes and
`k - attempt` further sleeps from attempt `attempt` on. -/
theorem wfrGo_first_success (probe : Nat → Bool) (m k : Nat) (hk : probe k = true) :
    ∀ (fuel attempt probes sleeps : Nat), attempt + fuel = m + 1 → attempt ≤ k → k ≤ m →
      (∀ i, attempt ≤ i → i < k → probe i = false) →
      wfrGo probe m fuel attempt probes sleeps
        = (true, probes + (k - attempt) + 1, sleeps + (k - attempt)) := by
  intro fuel
  induction fuel with
  | zero => intro attempt probes sleeps h hak hkm hfail; omega
  | succ f ih =>
      intro attempt probes sleeps h hak hkm hfail
      by_cases hek : attempt = k
      · subst hek
        simp [wfrGo, hk]
      · have hlt : attempt < k := by omega
        have hfa : probe attempt = false := hfail attempt (le_refl _) hlt
        have hltm : attempt < m := by omega
        rw [wfrGo]
        simp only [hfa, hltm, Bool.false_eq_true, ite_false, ite_true]
        rw [ih (attempt + 1) (probes + 1) (sleeps + 1) (by omega) (by omega) hkm
          (fun i h1 h2 => hfail i (by omega) h2)]
        simp [Prod.ext_iff]
        omega

/-- Dropping up to the first `:` of `A ++ ':' :: B` keeps at least the `:`
and all of `B`. -/
theorem dropWhile_colon_len (A B : List Char) :
    B.length + 1 ≤ ((A ++ ':' :: B).dropWhile (fun c => c != ':')).length := by
  induction A with
  | nil => simp [List.dropWhile]
  | cons a t ih =>
      by_cases ha : a = ':'
      · subst ha
        simp [List.dropWhile]
        omega
      · have hpa : (a != ':') = true := by simp [ha]
        simpa [List.dropWhile_cons, hpa] using ih

/-- Splitting a volume spec of the shape `<a A'>:<B>` (first character not a
colon, mount target nonempty) always yields a well-formed two-part mount. -/
theorem volume_split_ok (a : Char) (A' B : List Char) (ha : a ≠ ':') (hB : B ≠ []) :
    ∃ src tgt, mount_of_volume ((a :: A') ++ ':' :: B) = some (src, tgt) ∧ src ≠ [] ∧ tgt ≠ [] := by
  have hlen := dropWhile_colon_len (a :: A') B
  have hBpos : 0 < B.length := List.length_pos.mpr hB
  cases hx : ((a :: A') ++ ':' :: B).dropWhile (fun c => c != ':') with
  | nil => rw [hx] at hlen; simp at hlen
  | cons x rest =>
      rw [hx] at hlen
      have hrest : rest ≠ [] := by
        intro hr
        subst hr
        simp only [List.length_cons, List.length_nil] at hlen
        omega
      have hpa : (a != ':') = true := by simp [ha]
      have htw : ((a :: A') ++ ':' :: B).takeWhile (fun c => c != ':')
          = a :: (A' ++ ':' :: B).takeWhile (fun c => c != ':') := by
        simp [List.takeWhile_cons, hpa]
      refine ⟨((a :: A') ++ ':' :: B).takeWhile (fun c => c != ':'), rest, ?_, ?_, hrest⟩
      · simp only [List.cons_append] at hx
        simp [mount_of_volume, splitn2, hx]
      · rw [htw]; simp

/-- A concrete registry state used to witness the teardown theorem. -/
def sampleCleanupState : CleanupState :=
  ⟨some (), some "dev".data, ["svc".data], some "net".data⟩

/-! ## Claim theorems -/

/-- C1, counterexample: the claim says `computeTag(d)` is `bubble:` followed
by the first 12 hex characters of the SHA-256 digest of `d`; on the empty
Dockerfile the code instead produces `bubble-boy:e3b0c44298fc`, which is not
of the claimed form. -/
theorem compute_tag_claimed_form_cex :
    compute_tag [] ≠ "bubble:".data ++ (toHex (sha256 [])).take 12 := by decide

/-- C1, amended: `computeTag(d)` is the tag `bubble-boy:` (not `bubble:`)
followed by the first 12 hex characters of the SHA-256 digest of `d`;
repeated calls on the same `d` return the same tag (so the tag changes only
if `d` changes byte-for-byte), and the tag changes exactly when the first 12
digest hex characters change. -/
theorem compute_tag_spec (d : List Nat) :
    compute_tag d = "bubble-boy:".data ++ (toHex (sha256 d)).take 12 ∧
    (∀ d₂ : List Nat, d = d₂ → compute_tag d = compute_tag d₂) ∧
    (∀ d₂ : List Nat, compute_tag d = compute_tag d₂ ↔
      (toHex (sha256 d)).take 12 = (toHex (sha256 d₂)).take 12) := by
  refine ⟨rfl, fun d₂ h => by rw [h], fun d₂ => ?_⟩
  constructor
  · intro h
    simp only [compute_tag] at h
    exact List.append_cancel_left h
  · intro h
    simp only [compute_tag]
    rw [h]

/-- Witness for C1 at the empty Dockerfile. -/
theorem compute_tag_spec_witness :
    compute_tag [] = "bubble-boy:".data ++ (toHex (sha256 [])).take 12 ∧
    compute_tag [] = compute_tag [] :=
  ⟨(compute_tag_spec []).1, (compute_tag_spec []).2.1 [] rfl⟩

/-- C2: when the registry holds an engine handle (as it does from
construction in `run_shell`/`run_claude`/`run_chief`), the first teardown
extracts-and-clears every field — engine handle, dev-container id, the
service-container id list, and the network name — and a second teardown on
the resulting state is a no-op: it issues no engine calls, produces no
error (the operation is infallible by construction, matching the Rust
method's `()` return), and leaves the state unchanged. -/
theorem cleanup_idempotent (s : CleanupState) (h : s.docker.isSome = true) :
    ((s.cleanup).1.docker = none ∧ (s.cleanup).1.dev_container_id = none ∧
     (s.cleanup).1.service_container_ids = [] ∧ (s.cleanup).1.network_name = none) ∧
    (s.cleanup).1.cleanup = ((s.cleanup).1, []) := by
  rcases s with ⟨dk, dev, svc, net⟩
  cases dk with
  | none => simp at h
  | some u => simp [CleanupState.cleanup]

/-- Witness for C2 on a fully populated registry. -/
theorem cleanup_idempotent_witness :
    sampleCleanupState.docker.isSome = true ∧
    (((sampleCleanupState.cleanup).1.docker = none ∧
      (sampleCleanupState.cleanup).1.dev_container_id = none ∧
      (sampleCleanupState.cleanup).1.service_container_ids = [] ∧
      (sampleCleanupState.cleanup).1.network_name = none) ∧
     (sampleCleanupState.cleanup).1.cleanup = ((sampleCleanupState.cleanup).1, [])) :=
  ⟨rfl, cleanup_idempotent sampleCleanupState rfl⟩

/-- C3, counterexample: with MySQL, Redis and PostgreSQL all enabled,
`collect_services` returns `[mysql, redis, postgres]` — the cache service
Redis (index 1) appears before the database-engine service PostgreSQL
(index 2), refuting "database-engine services first, then cache services". -/
theorem collect_services_order_cex :
    ((collect_services ⟨some MysqlConfig.default, some true, some PostgresConfig.default⟩
        "p".data).map Service.name
      = ["mysql".data, "redis".data, "postgres".data]) ∧
    ((collect_services ⟨some MysqlConfig.default, some true, some PostgresConfig.default⟩
        "p".data)[1]?.any Service.is_cache = true) ∧
    ((collect_services ⟨some MysqlConfig.default, some true, some PostgresConfig.default⟩
        "p".data)[2]?.any Service.is_database = true) := by decide

/-- C3, amended: for every configuration, `collect_services` returns the
enabled services in the fixed declared order MySQL, then Redis, then
PostgreSQL (the name sequence is a sublist of `[mysql, redis, postgres]`);
the order is deterministic, but it is not "databases first, then caches":
an enabled Redis precedes an enabled PostgreSQL. -/
theorem collect_services_declared_order (config : ServiceConfig) (project : List Char) :
    List.Sublist ((collect_services config project).map Service.name)
      ["mysql".data, "redis".data, "postgres".data] := by
  rcases config with ⟨m, r, p⟩
  rcases m with _ | mc <;> rcases p with _ | pc <;>
    by_cases hr : r = some true <;>
      simp [collect_services, hr, Service.name]

/-- C4, counterexample: the signal-triggered teardown path exits with 130
unconditionally (`std::process::exit(130)` in `spawn_signal_handler`), so for
SIGTERM the exit code is 130, not the claimed 128 + 15 = 143. -/
theorem signal_exit_code_cex :
    signal_cleanup_exit_code Sig.sigterm = 130 ∧
    signal_cleanup_exit_code Sig.sigterm ≠ 128 + sig_number Sig.sigterm := by decide

/-- C4, amended: the session exits with the inner interactive exec's exit
code on normal completion; on the signal path it exits with 130 whichever
termination signal was received — which is 128 + signal number for SIGINT
only, not for SIGTERM. -/
theorem exit_code_spec (exec_code : Int) (sig : Sig) :
    session_exit_code exec_code = exec_code ∧
    signal_cleanup_exit_code sig = 130 ∧
    signal_cleanup_exit_code Sig.sigint = 128 + sig_number Sig.sigint := by
  refine ⟨?_, rfl, by decide⟩
  by_cases h : exec_code = 0 <;> simp [session_exit_code, h]

/-- C5, counterexample: for project `p` the default dev-container name is
`bubble-boy-p`, the default network name is `bubble-bot-p`, and the MySQL
service container is `bubble-bot-p-mysql` — none matches the claimed
`bubble-p`/`bubble-p-mysql` scheme, and the container and network defaults
do not even share a prefix with each other. -/
theorem default_names_cex :
    default_container_name (some "p".data) ≠ "bubble-p".data ∧
    default_network_name (some "p".data) ≠ "bubble-p".data ∧
    default_network_name (some "p".data) ≠ default_container_name (some "p".data) ∧
    (Service.mysql MysqlConfig.default "p".data).container_name "p".data
      ≠ "bubble-p-mysql".data := by decide

/-- C5, amended: default names derive from the working directory's base name,
but with inconsistent prefixes: dev container `bubble-boy-<project>`, network
`bubble-bot-<project>`, MySQL service container `bubble-bot-<project>-mysql`,
Redis `bubble-boy-<project>-redis`, PostgreSQL
`bubble-boy-<project>-postgres`; for every project the container and network
defaults differ. -/
theorem default_names_spec (p : List Char) (mc : MysqlConfig) (pc : PostgresConfig) :
    default_container_name (some p) = "bubble-boy-".data ++ p ∧
    default_network_name (some p) = "bubble-bot-".data ++ p ∧
    (Service.mysql mc p).container_name p = "bubble-bot-".data ++ p ++ "-mysql".data ∧
    (Service.redis p).container_name p = "bubble-boy-".data ++ p ++ "-redis".data ∧
    (Service.postgres pc p).container_name p = "bubble-boy-".data ++ p ++ "-postgres".data ∧
    default_container_name (some p) ≠ default_network_name (some p) := by
  refine ⟨rfl, rfl, rfl, rfl, rfl, ?_⟩
  intro h
  simp only [default_container_name, default_network_name] at h
  exact absurd (List.append_cancel_right h) (by decide)

/-- C6: with `forceRebuild` false and an existing image at the computed tag,
`build` performs no engine build and returns the tag with `cached = true`;
with `forceRebuild` true a build is always attempted; and whenever a build
was attempted and completed successfully the result carries
`cached = false`. -/
theorem build_cache_spec (d : List Nat) (ex : List Char → Bool) (err : Option (List Char)) :
    (ex (compute_tag d) = true →
      build d ex err false = (Except.ok ⟨compute_tag d, true⟩, false)) ∧
    ((build d ex err true).2 = true) ∧
    (∀ nc : Bool, (build d ex none nc).2 = true →
      (build d ex none nc).1 = Except.ok ⟨compute_tag d, false⟩) := by
  refine ⟨?_, ?_, ?_⟩
  · intro h
    simp [build, h]
  · cases err <;> simp [build]
  · intro nc hnc
    cases nc <;> by_cases h : ex (compute_tag d) = true <;> simp_all [build]

/-- Witness for C6: an engine that reports the image as existing produces a
cache hit with no build call. -/
theorem build_cache_spec_witness :
    (fun _ : List Char => true) (compute_tag []) = true ∧
    build [] (fun _ => true) none false = (Except.ok ⟨compute_tag [], true⟩, false) :=
  ⟨rfl, (build_cache_spec [] (fun _ => true) none).1 rfl⟩

/-- C7: for `maxAttempts ≥ 1`, `wait_for_ready` with an always-failing probe
executes the probe exactly `maxAttempts` times with a sleep between
consecutive attempts but none after the last, then fails with the error
naming the service and the attempt count; and when the probe first succeeds
at attempt `k`, it returns success after exactly `k` probes and `k - 1`
sleeps, with no further probes or sleeps. -/
theorem wait_for_ready_spec (service_name : List Char) (m : Nat) (h1 : 1 ≤ m) :
    (wait_for_ready (fun _ => false) m service_name
      = (Except.error (service_name ++ " service did not become ready after ".data ++
          (Nat.repr m).data ++ " attempts".data), m, m - 1)) ∧
    (∀ (probe : Nat → Bool) (k : Nat), 1 ≤ k → k ≤ m → probe k = true →
      (∀ i, 1 ≤ i → i < k → probe i = false) →
      wait_for_ready probe m service_name = (Except.ok (), k, k - 1)) := by
  constructor
  · unfold wait_for_ready
    obtain ⟨m', rfl⟩ : ∃ m', m = m' + 1 := ⟨m - 1, by omega⟩
    rw [wfrGo_all_fail (fun _ => false) (m' + 1) (fun _ => rfl) m' 1 0 0 (by omega)]
    simp
  · intro probe k hk1 hkm hk hfail
    unfold wait_for_ready
    rw [wfrGo_first_success probe m k hk m 1 0 0 (by omega) hk1 hkm hfail]
    simp
    omega

/-- Witness for C7: three attempts against an always-failing probe for the
`mysql` service. -/
theorem wait_for_ready_spec_witness :
    1 ≤ 3 ∧
    wait_for_ready (fun _ => false) 3 "mysql".data
      = (Except.error ("mysql".data ++ " service did not become ready after ".data ++
          (Nat.repr 3).data ++ " attempts".data), 3, 3 - 1) :=
  ⟨by decide, (wait_for_ready_spec "mysql".data 3 (by decide)).1⟩

/-- C8: with MySQL under its default configuration (version 8.0, database
`app`, username `root`, password `password`) and Redis enabled, the services
are collected in declared order MySQL then Redis, and the dev-container
environment is exactly the 7 entries `DB_HOST=mysql, DB_PORT=3306,
DB_DATABASE=app, DB_USERNAME=root, DB_PASSWORD=password, REDIS_HOST=redis,
REDIS_PORT=6379`, in that order, for every project name. -/
theorem mysql_redis_env_spec (project : List Char) :
    MysqlConfig.default = ⟨"8.0".data, "app".data, "root".data, "password".data⟩ ∧
    (collect_services ⟨some MysqlConfig.default, some true, none⟩ project).map Service.name
      = ["mysql".data, "redis".data] ∧
    collect_service_env_vars (collect_services ⟨some MysqlConfig.default, some true, none⟩ project)
      = ["DB_HOST=mysql".data, "DB_PORT=3306".data, "DB_DATABASE=app".data,
         "DB_USERNAME=root".data, "DB_PASSWORD=password".data,
         "REDIS_HOST=redis".data, "REDIS_PORT=6379".data] :=
  ⟨rfl, rfl, rfl⟩

/-- C9: for every project name `p`, the MySQL service container
(`bubble-bot-<p>-mysql`, reported by Docker with a leading slash) fails the
container stale-prefix test against the default project prefix
`bubble-boy-<p>`, while the Redis and PostgreSQL containers
(`bubble-boy-<p>-redis`, `bubble-boy-<p>-postgres`) pass it — so a stale
sweep keyed on the default prefix never matches a MySQL service container. -/
theorem stale_sweep_mysql_mismatch (p : List Char) (mc : MysqlConfig) (pc : PostgresConfig) :
    matches_stale ('/' :: (Service.mysql mc p).container_name p)
      (default_container_name (some p)) = false ∧
    matches_stale ('/' :: (Service.redis p).container_name p)
      (default_container_name (some p)) = true ∧
    matches_stale ('/' :: (Service.postgres pc p).container_name p)
      (default_container_name (some p)) = true :=
  ⟨rfl, matches_stale_self_dash ("bubble-boy-".data ++ p) "redis".data,
    matches_stale_self_dash ("bubble-boy-".data ++ p) "postgres".data⟩

/-- C10: for every project name, each built-in descriptor's volume is either
`none` (Redis) or a spec containing a colon whose first-colon split yields a
nonempty source and a nonempty target — so the unchecked `parts[1]` indexing
in `start_service`'s mount construction never goes out of bounds for the
built-in descriptors. -/
theorem service_volume_split_safe (p : List Char) (mc : MysqlConfig) (pc : PostgresConfig) :
    (Service.redis p).volume = none ∧
    (∀ v, (Service.mysql mc p).volume = some v →
      ∃ src tgt, mount_of_volume v = some (src, tgt) ∧ src ≠ [] ∧ tgt ≠ []) ∧
    (∀ v, (Service.postgres pc p).volume = some v →
      ∃ src tgt, mount_of_volume v = some (src, tgt) ∧ src ≠ [] ∧ tgt ≠ []) := by
  refine ⟨rfl, ?_, ?_⟩
  · intro v hv
    simp only [Service.volume] at hv
    obtain rfl := Option.some.inj hv
    exact volume_split_ok 'b' ("ubble-bot-".data ++ p ++ "-mysql-data".data)
      "/var/lib/mysql".data (by decide) (by decide)
  · intro v hv
    simp only [Service.volume] at hv
    obtain rfl := Option.some.inj hv
    exact volume_split_ok 'b' ("ubble-boy-".data ++ p ++ "-postgres-data".data)
      "/var/lib/postgresql/data".data (by decide) (by decide)

/-- Witness for C10: the MySQL volume of a concrete project splits safely. -/
theorem service_volume_split_safe_witness :
    (Service.mysql MysqlConfig.default "demo".data).volume
      = some (("bubble-bot-".data ++ "demo".data ++ "-mysql-data".data) ++ ":/var/lib/mysql".data) ∧
    (∃ src tgt,
      mount_of_volume (("bubble-bot-".data ++ "demo".data ++ "-mysql-data".data) ++ ":/var/lib/mysql".data)
        = some (src, tgt) ∧ src ≠ [] ∧ tgt ≠ []) :=
  ⟨rfl, (service_volume_split_safe "demo".data MysqlConfig.default PostgresConfig.default).2.1 _ rfl⟩

end BubbleBot
